import Mathlib

set_option maxRecDepth 8192

/-!
Verification of the MCP demo server/client (server.py, client.py).

The Python code is shallowly embedded: pure functions become Lean
functions, the random source of `ancient_latin_text` becomes an explicit
oracle (`RandDraws`), Python values handled by the client bridge become
an inductive `PyVal`, and Python exceptions become `Except PyErr`.
-/

/-- Oracle for the random draws consumed by `ancient_latin_text`:
`suffixFire i` is the outcome of the test `random.random() < 0.3` at word
index `i`, `suffixUs i` the outcome of `random.random() < 0.5` there
(true picks the suffix "us"), `phraseFire` the outcome of the final
`random.random() < 0.5`, `phraseChoice` selects the phrase and
`insertPos` the value drawn by `random.randint`. -/
structure RandDraws where
  suffixFire : Nat → Bool
  suffixUs : Nat → Bool
  phraseFire : Bool
  phraseChoice : Nat
  insertPos : Nat

/-- The fixed substitution table of `ancient_latin_text` (server.py lines 55-73). -/
def replacements : List (String × String) :=
  [("the", "thy"), ("and", "et"), ("of", "de"), ("to", "ad"), ("in", "in"),
   ("is", "est"), ("for", "pro"), ("with", "cum"), ("you", "tu"), ("I", "ego"),
   ("we", "nos"), ("they", "illi"), ("this", "hic"), ("that", "ille"),
   ("have", "habeo"), ("be", "esse"), ("will", "voluntas")]

/-- The characters removed by Python `str.strip(".,;:!?")`. -/
def punctChars : List Char := ['.', ',', ';', ':', '!', '?']

/-- Python `s.strip(".,;:!?")` on a character list: drop the characters of
the set from both ends. -/
def stripPunct (s : List Char) : List Char :=
  ((s.dropWhile (fun c => punctChars.contains c)).reverse.dropWhile
    (fun c => punctChars.contains c)).reverse

/-- Python `str.capitalize()`: first character upper-cased, the rest lower-cased. -/
def pyCapitalize (s : String) : String :=
  match s.toList with
  | [] => ""
  | c :: cs => String.mk (c.toUpper :: cs.map Char.toLower)

/-- The substitution applied to a single token by the first loop of
`ancient_latin_text` (server.py lines 77-89): lower-case, strip the
punctuation set from both ends, look the result up in `replacements`;
on a hit, emit the table entry (capitalized when the token's first
character was upper case) followed by the token's last character when
that character is not alphanumeric. -/
def substWord (word : String) : String :=
  match word.toList with
  | [] => word
  | c0 :: cs =>
    let clean := String.mk (stripPunct ((c0 :: cs).map Char.toLower))
    match replacements.lookup clean with
    | Option.none => word
    | some rep =>
      let lastC := cs.getLast?.getD c0
      let punct := if lastC.isAlphanum then "" else String.mk [lastC]
      if c0.isUpper then pyCapitalize rep ++ punct else rep ++ punct

/-- Split a character list at every character satisfying `p`, keeping
empty pieces (the semantics of Python `str.split(sep)` per separator
occurrence). -/
def splitListBy (p : Char → Bool) : List Char → List (List Char)
  | [] => [[]]
  | c :: cs =>
    let r := splitListBy p cs
    if p c then [] :: r
    else
      match r with
      | [] => [[c]]
      | h :: t => (c :: h) :: t

/-- Python `str.split()` with no argument: split on whitespace and drop
empty pieces. -/
def splitWs (s : String) : List String :=
  ((splitListBy Char.isWhitespace s.toList).map String.mk).filter (fun w => w != "")

/-- Python `str.split(sep)` for a one-character separator. -/
def strSplitOn (sep : Char) (s : String) : List String :=
  (splitListBy (fun c => c == sep) s.toList).map String.mk

/-- The suffixing step of `ancient_latin_text` (server.py lines 92-98) at
word index `i`: a word longer than 4 characters whose last character is
alphanumeric gets "us" or "um" appended when the 0.3-draw fires. -/
def suffixWord (d : RandDraws) (i : Nat) (word : String) : String :=
  if word.length > 4 then
    if d.suffixFire i then
      if (word.toList.getLast?.getD ' ').isAlphanum then
        if d.suffixUs i then word ++ "us" else word ++ "um"
      else word
    else word
  else word

/-- In-place indexed update loop (`for i, word in enumerate(words)`)
as an indexed map starting at index `n`. -/
def mapWithIdx (f : Nat → String → String) : Nat → List String → List String
  | _, [] => []
  | n, w :: ws => f n w :: mapWithIdx f (n + 1) ws

/-- The fixed Latin phrases of `ancient_latin_text` (server.py lines 101-107). -/
def latin_phrases : List String :=
  ["Veni, vidi, vici.", "Alea iacta est.", "Carpe diem.", "Et tu, Brute?",
   "Cogito, ergo sum."]

/-- Python `list.insert(n, a)` for `0 ≤ n ≤ length`. -/
def insertAt (n : Nat) (a : String) (l : List String) : List String :=
  l.take n ++ a :: l.drop n

/-- `ancient_latin_text` (server.py lines 41-118), with the random source
made explicit as `d`: split the text on whitespace, substitute each
token, randomly suffix tokens, join with single spaces, and when the
joined string is longer than 50 characters and the 0.5-draw fires,
splice in a Latin phrase at the drawn position. -/
def ancient_latin_text (text : String) (d : RandDraws) : String :=
  let words0 := splitWs text
  let words1 := words0.map substWord
  let words2 := mapWithIdx (suffixWord d) 0 words1
  let result := String.intercalate " " words2
  if result.length > 50 then
    if d.phraseFire then
      let phrase := latin_phrases.getD (d.phraseChoice % latin_phrases.length) ""
      String.intercalate " " (insertAt (d.insertPos % words2.length) phrase words2)
    else result
  else result

/-- `get_ancient_latin_text` (server.py lines 165-179): the resource
delegates to the tool. -/
def get_ancient_latin_text (text : String) (d : RandDraws) : String :=
  ancient_latin_text text d

/-- `get_greeting` (server.py lines 326-337). -/
def get_greeting (name : String) : String := "Hello, " ++ name ++ "!"

/-- `add` (server.py lines 25-37). -/
def add (a b : Int) : Int := a + b

/-- The compiled-in CSV dataset `GREEK_GODS_CSV` (server.py lines 123-138). -/
def GREEK_GODS_CSV : String :=
  "name,domain,symbol,roman_name\nZeus,Sky and Thunder,Lightning bolt,Jupiter\nPoseidon,Sea and Earthquakes,Trident,Neptune\nHades,Underworld,Helmet of darkness,Pluto\nAthena,Wisdom and War,Owl,Minerva\nApollo,Sun and Music,Lyre,Apollo\nArtemis,Moon and Hunt,Bow and arrow,Diana\nAphrodite,Love and Beauty,Dove,Venus\nHermes,Messengers and Travelers,Winged sandals,Mercury\nAres,War,Spear,Mars\nHephaestus,Fire and Forge,Hammer,Vulcan\nDemeter,Agriculture,Wheat,Ceres\nDionysus,Wine and Festivity,Grapevine,Bacchus\nHera,Marriage and Family,Peacock,Juno\nHestia,Hearth and Home,Hearth,Vesta\n"

/-- One row produced by `csv.DictReader` over `GREEK_GODS_CSV`: the four
header fields. -/
structure GodRecord where
  name : String
  domain : String
  symbol : String
  roman_name : String
  deriving DecidableEq

/-- Parse one CSV data line into a record; a blank line yields nothing
(`DictReader` skips blank rows). -/
def parseCsvRow (line : String) : Option GodRecord :=
  match strSplitOn ',' line with
  | [n, d, s, r] => some (GodRecord.mk n d s r)
  | _ => Option.none

/-- The rows read by `csv.DictReader` (header line dropped). -/
def greekGods : List GodRecord :=
  ((strSplitOn '\n' GREEK_GODS_CSV).drop 1).filterMap parseCsvRow

/-- `get_greek_gods` (server.py lines 141-161): keep rows while the index
is below the limit (all rows when the limit is absent); default limit 10. -/
def get_greek_gods (limit : Option Int := some 10) : List GodRecord :=
  match limit with
  | Option.none => greekGods
  | some l => greekGods.take l.toNat

/-- A draw sequence in which no probabilistic test fires. -/
def noDraws : RandDraws := RandDraws.mk (fun _ => false) (fun _ => false) false 0 0

/-- A draw sequence in which every probabilistic test fires. -/
def fireDraws : RandDraws := RandDraws.mk (fun _ => true) (fun _ => true) true 0 0

/-- Python values as handled by the client bridge: the JSON-like data
passed to `OllamaClient.process_mcp_prompt` and returned by the Ollama
endpoint. -/
inductive PyVal where
  | null : PyVal
  | bool : Bool → PyVal
  | int : Int → PyVal
  | str : String → PyVal
  | list : List PyVal → PyVal
  | dict : List (String × PyVal) → PyVal

/-- Python exceptions that the bridge code can raise. -/
inductive PyErr where
  | keyError : String → PyErr
  | typeError : PyErr
  deriving DecidableEq

/-- Is the value a Python dict (`isinstance(x, dict)`). -/
def PyVal.isDict : PyVal → Bool
  | .dict _ => true
  | _ => false

/-- Python truthiness (`bool(x)` is False). -/
def pyFalsy : PyVal → Bool
  | .null => true
  | .bool b => !b
  | .int n => n == 0
  | .str s => s == ""
  | .list l => l.isEmpty
  | .dict f => f.isEmpty

/-- Python `x == s` against a string literal `s`. -/
def pyEqStr (v : PyVal) (s : String) : Bool :=
  match v with
  | .str t => t == s
  | _ => false

/-- `"k" in x` on a dict restricted to dicts (`isinstance` checked first). -/
def pyHasKey (v : PyVal) (k : String) : Bool :=
  match v with
  | .dict f => (f.lookup k).isSome
  | _ => false

/-- Python subscription `x[k]` with a string key: succeeds only on dicts
containing the key; a dict without the key raises `KeyError`, any other
value raises `TypeError`. -/
def getItem (v : PyVal) (k : String) : Except PyErr PyVal :=
  match v with
  | .dict f =>
    match f.lookup k with
    | some r => .ok r
    | Option.none => .error (PyErr.keyError k)
  | _ => .error PyErr.typeError

/-- Python membership `k in x` for a string `k`: key lookup on dicts,
substring test on strings, element equality on lists, `TypeError`
otherwise. -/
def pyIn (k : String) (v : PyVal) : Except PyErr Bool :=
  match v with
  | .dict f => .ok (f.lookup k).isSome
  | .str s => .ok ((s.toList.tails).any (fun t => k.toList.isPrefixOf t))
  | .list l => .ok (l.any (fun x => pyEqStr x k))
  | _ => .error PyErr.typeError

/-- Python iteration over a value: lists yield their elements, strings
their characters, dicts their keys; other values raise `TypeError`. -/
def pyIter (v : PyVal) : Except PyErr (List PyVal) :=
  match v with
  | .list l => .ok l
  | .str s => .ok (s.toList.map (fun c => PyVal.str (String.mk [c])))
  | .dict f => .ok (f.map (fun p => PyVal.str p.1))
  | _ => .error PyErr.typeError

/-- `next((m for m in msgs if m["role"] == role), None)` (client.py lines
84-85): scan the messages, evaluating `m["role"]` — which may raise — on
each one until the first match. -/
def findByRole (msgs : List PyVal) (role : String) : Except PyErr (Option PyVal) :=
  match msgs with
  | [] => .ok Option.none
  | m :: rest =>
    match getItem m "role" with
    | .error e => .error e
    | .ok r => if pyEqStr r role then .ok (some m) else findByRole rest role

/-- The test `not user_message or "content" not in user_message or "text"
not in user_message["content"]` (client.py line 87), with Python
short-circuit evaluation. -/
def userMissing : Option PyVal → Except PyErr Bool
  | Option.none => .ok true
  | some m =>
    if pyFalsy m then .ok true
    else
      match pyIn "content" m with
      | .error e => .error e
      | .ok false => .ok true
      | .ok true =>
        match getItem m "content" with
        | .error e => .error e
        | .ok c =>
          match pyIn "text" c with
          | .error e => .error e
          | .ok b => .ok (!b)

/-- The system-text extraction (client.py lines 90-92): when a system
message is present, truthy, has a "content" entry containing "text", use
that text; otherwise None. -/
def extractSystemText : Option PyVal → Except PyErr (Option PyVal)
  | Option.none => .ok Option.none
  | some m =>
    if pyFalsy m then .ok Option.none
    else
      match pyIn "content" m with
      | .error e => .error e
      | .ok false => .ok Option.none
      | .ok true =>
        match getItem m "content" with
        | .error e => .error e
        | .ok c =>
          match pyIn "text" c with
          | .error e => .error e
          | .ok false => .ok Option.none
          | .ok true =>
            match getItem c "text" with
            | .error e => .error e
            | .ok t => .ok (some t)

/-- `user_message["content"]["text"]` (client.py line 94). -/
def extractUserText (um : Option PyVal) : Except PyErr PyVal :=
  match um with
  | Option.none => .error PyErr.typeError
  | some m =>
    match getItem m "content" with
    | .error e => .error e
    | .ok c => getItem c "text"

/-- `OllamaClient.process_mcp_prompt` (client.py lines 70-97),
parameterized by the `generate` call it delegates to. Exceptions raised
by the Python code surface as `.error`. -/
def process_mcp_prompt (gen : PyVal → Option PyVal → Except PyErr PyVal)
    (prompt_data : PyVal) : Except PyErr PyVal :=
  if prompt_data.isDict && pyHasKey prompt_data "messages" then
    match getItem prompt_data "messages" with
    | .error e => .error e
    | .ok msgsVal =>
      match pyIter msgsVal with
      | .error e => .error e
      | .ok msgs =>
        match findByRole msgs "system" with
        | .error e => .error e
        | .ok sm =>
          match findByRole msgs "user" with
          | .error e => .error e
          | .ok um =>
            match userMissing um with
            | .error e => .error e
            | .ok true => .ok (PyVal.str "Error: Missing user message")
            | .ok false =>
              match extractSystemText sm with
              | .error e => .error e
              | .ok st =>
                match extractUserText um with
                | .error e => .error e
                | .ok ut => gen ut st
  else .ok (PyVal.str "Error: Invalid prompt format")

/-- Outcome of the one HTTP POST in `OllamaClient.generate`: either a
`requests.RequestException` (including the `HTTPError` raised by
`raise_for_status`) with its message, or a 2xx response whose body
decodes to a JSON value (`Option.none` when `response.json()` fails). -/
inductive HttpOutcome where
  | reqError : String → HttpOutcome
  | success : Option PyVal → HttpOutcome

/-- The request payload built by `OllamaClient.generate` (client.py lines
52-59): the "system" entry is added only when `system` is truthy. -/
def mkPayload (model : String) (prompt : PyVal) (system : Option PyVal) : PyVal :=
  let base := [("model", PyVal.str model), ("prompt", prompt),
    ("stream", PyVal.bool false)]
  match system with
  | some s => if pyFalsy s then PyVal.dict base else PyVal.dict (base ++ [("system", s)])
  | Option.none => PyVal.dict base

/-- `OllamaClient.generate` (client.py lines 41-68), with the network
modelled as a function `net` from the posted payload to its outcome. A
`RequestException` is caught and turned into an "Error: ..." string; a
body that is not valid JSON (`response.json()` raising `ValueError`) or
not a JSON object (`result.get` on a non-dict raising `AttributeError`)
escapes as an exception. -/
def generate (net : PyVal → HttpOutcome) (model : String) (prompt : PyVal)
    (system : Option PyVal) : Except PyErr PyVal :=
  match net (mkPayload model prompt system) with
  | .reqError e => .ok (PyVal.str ("Error: " ++ e))
  | .success Option.none => .error PyErr.typeError
  | .success (some body) =>
    match body with
    | .dict f => .ok ((f.lookup "response").getD (PyVal.str ""))
    | _ => .error PyErr.typeError

/-- A message is well formed when it is a dict with a "role" entry whose
"content" entry, when present, is itself a dict. -/
def wfMsg (m : PyVal) : Bool :=
  match m with
  | .dict f =>
    (f.lookup "role").isSome &&
      (match f.lookup "content" with
       | Option.none => true
       | some (.dict _) => true
       | some _ => false)
  | _ => false

/-- Does message `m` carry the given role. -/
def hasRole (role : String) (m : PyVal) : Bool :=
  match m with
  | .dict f =>
    match f.lookup "role" with
    | some (.str r) => r == role
    | _ => false
  | _ => false

/-- The "content" entry of a message lacks a dict with a "text" entry. -/
def contentMissing : Option PyVal → Bool
  | Option.none => true
  | some (.dict cf) => (cf.lookup "text").isNone
  | some _ => true

/-- The candidate user message is unusable: absent, not a dict, or with
a missing "content" dict or "text" entry. -/
def userMissingPure : Option PyVal → Bool
  | Option.none => true
  | some (.dict f) => contentMissing (f.lookup "content")
  | some _ => true

/-- The message list lacks a usable user message: no message with role
"user", or the first such message lacks a "content" dict with a "text"
entry. -/
def missingUser (msgs : List PyVal) : Bool :=
  userMissingPure (msgs.find? (hasRole "user"))

/-- A generation backend stub returning an empty response. -/
def genStub : PyVal → Option PyVal → Except PyErr PyVal :=
  fun _ _ => .ok (PyVal.str "")

/-- A network on which every request fails with a connection error. -/
def netFail : PyVal → HttpOutcome := fun _ => HttpOutcome.reqError "connection refused"

/-- A well-formed example prompt with one user message. -/
def wfPromptExample : PyVal :=
  PyVal.dict [("messages", PyVal.list
    [PyVal.dict [("role", PyVal.str "user"),
      ("content", PyVal.dict [("text", PyVal.str "hi")])]])]

/-- Python `str(x)` for an optional string, as interpolated by an
f-string: `str(None)` prints "None". -/
def pyStrOfOptStr : Option String → String
  | some s => s
  | Option.none => "None"

/-- Python `str.lower()` (ASCII). -/
def strLower (s : String) : String := String.mk (s.toList.map Char.toLower)

/-- The `base_prompt` of `get_mcp_expert_prompt` (server.py lines 198-213). -/
def mcpBasePrompt : String :=
  "You are an MCP (Model Control Protocol) expert assistant. Your goal is to provide accurate, \nhelpful information about the MCP protocol, its components, and how to use it effectively.\n\nThe MCP protocol consists of three main components:\n1. Tools: Model-controlled functions that allow AI models to take actions\n2. Resources: Application-controlled data that models can access but not modify\n3. Prompts: User-controlled templates for AI interactions\n\nWhen answering questions about MCP, focus on:\n- Explaining concepts clearly with examples\n- Providing practical implementation advice\n- Suggesting best practices for MCP architecture\n- Helping troubleshoot common issues\n\nRemember that MCP is designed to create safer, more controllable AI systems by clearly \ndefining the boundaries between model control, application control, and user control."

/-- Topic boilerplate for "tools" (server.py lines 218-222). -/
def toolsContent : String :=
  "\nTools in MCP are model-controlled functions that allow AI models to take actions.\nThey are defined on the server side and can be invoked by the client.\nTools have a name, description, and parameters, and they return a result.\nExamples include text transformation, data processing, or external API calls."

/-- Topic boilerplate for "resources" (server.py lines 224-228). -/
def resourcesContent : String :=
  "\nResources in MCP are application-controlled data that models can access but not modify.\nThey are defined on the server side and can be accessed by the client.\nResources have a URI and can return various types of data.\nExamples include database records, file contents, or API responses."

/-- Topic boilerplate for "prompts" (server.py lines 230-235). -/
def promptsContent : String :=
  "\nPrompts in MCP are user-controlled templates for AI interactions.\nThey are defined on the server side and can be used by the client.\nPrompts have a name, description, and optional arguments.\nThey return structured messages with roles and content.\nPrompts can include dynamic content from resources and support multi-step workflows."

/-- The fixed two-message structure returned by all three prompt
builders (server.py lines 238-255, 272-289, 305-322): a system-role
message followed by a user-role message, each with a text content dict. -/
def promptShape (systemText userText : String) : PyVal :=
  PyVal.dict [("messages", PyVal.list
    [PyVal.dict [("role", PyVal.str "system"),
       ("content", PyVal.dict [("type", PyVal.str "text"),
         ("text", PyVal.str systemText)])],
     PyVal.dict [("role", PyVal.str "user"),
       ("content", PyVal.dict [("type", PyVal.str "text"),
         ("text", PyVal.str userText)])]])]

/-- `get_mcp_expert_prompt` (server.py lines 184-255). An empty topic is
falsy in Python (`if topic:`), so it selects no topic content and the
generic user question. -/
def get_mcp_expert_prompt (topic : Option String) : PyVal :=
  let topic_content :=
    match topic with
    | some t =>
      if t = "" then ""
      else if strLower t = "tools" then toolsContent
      else if strLower t = "resources" then resourcesContent
      else if strLower t = "prompts" then promptsContent
      else ""
    | Option.none => ""
  let userTopic :=
    match topic with
    | some t => if t = "" then "MCP in general" else t
    | Option.none => "MCP in general"
  promptShape (mcpBasePrompt ++ topic_content) ("Please tell me about " ++ userTopic)

/-- `get_code_review_prompt` (server.py lines 258-289). -/
def get_code_review_prompt (code : String)
    (language : Option String := some "python") : PyVal :=
  let lang := pyStrOfOptStr language
  promptShape
    ("You are an expert " ++ lang ++
      " developer. Your task is to review code and provide constructive feedback.")
    ("Please review this " ++ lang ++ " code and suggest improvements:\n\n```" ++
      lang ++ "\n" ++ code ++ "\n```")

/-- `get_git_commit_prompt` (server.py lines 292-322). -/
def get_git_commit_prompt (changes : String) : PyVal :=
  promptShape
    "You are an expert at writing clear, concise, and informative Git commit messages."
    ("Generate a commit message for these changes:\n\n" ++ changes)

theorem greekGods_length : greekGods.length = 14 := by decide

theorem mapWithIdx_noFire (d : RandDraws) (hs : ∀ i, d.suffixFire i = false) :
    ∀ (n : Nat) (l : List String), mapWithIdx (suffixWord d) n l = l := by
  intro n l
  induction l generalizing n with
  | nil => rfl
  | cons w ws ih => simp [mapWithIdx, suffixWord, hs, ih]

/-- Claim C1: for every input and every draw sequence in which no
suffixing draw and no phrase-insertion draw fires, `ancient_latin_text`
returns the whitespace tokens of the input, each passed through the
table substitution, joined by single spaces; a token whose lower-cased,
punctuation-stripped form misses the table is unchanged, and in
particular "the" maps to "thy" (capitalization and trailing punctuation
preserved, as in "The," mapping to "Thy,"). -/
theorem ancient_latin_subst_only (text : String) (d : RandDraws)
    (hs : ∀ i, d.suffixFire i = false) (hp : d.phraseFire = false) :
    ancient_latin_text text d = String.intercalate " " ((splitWs text).map substWord)
    ∧ substWord "the" = "thy"
    ∧ substWord "The," = "Thy,"
    ∧ ∀ w : String,
        replacements.lookup (String.mk (stripPunct (w.toList.map Char.toLower))) =
          Option.none →
        substWord w = w := by
  refine ⟨?_, by decide, by decide, ?_⟩
  · simp [ancient_latin_text, mapWithIdx_noFire d hs, hp]
  · intro w hw
    simp only [String.toList] at hw
    cases hcs : w.data with
    | nil => simp [substWord, String.toList, hcs]
    | cons c0 cs =>
      rw [hcs] at hw
      simp only [List.map_cons] at hw
      simp [substWord, String.toList, hcs, hw]

/-- Witness for C1 at a concrete input. -/
theorem ancient_latin_subst_only_witness :
    ancient_latin_text "The dog and the cat." noDraws = "Thy dog et thy cat." := by
  have h := ancient_latin_subst_only "The dog and the cat." noDraws (fun i => rfl) rfl
  exact h.1.trans (by decide)

/-- Claim C6: for every input and every draw sequence, when the string
joined from the substituted and suffixed tokens is at most 50 characters
long, `ancient_latin_text` returns exactly that joined string: no Latin
phrase is spliced in. -/
theorem ancient_latin_no_phrase_when_short (text : String) (d : RandDraws)
    (h : (String.intercalate " "
        (mapWithIdx (suffixWord d) 0 ((splitWs text).map substWord))).length ≤ 50) :
    ancient_latin_text text d =
      String.intercalate " " (mapWithIdx (suffixWord d) 0 ((splitWs text).map substWord)) := by
  simp only [ancient_latin_text]
  rw [if_neg (by omega)]

/-- Witness for C6: even with the phrase-insertion draw firing, a short
result is returned without a phrase. -/
theorem ancient_latin_no_phrase_when_short_witness :
    ancient_latin_text "big words here" fireDraws = "big wordsus here" := by
  have h := ancient_latin_no_phrase_when_short "big words here" fireDraws (by decide)
  exact h.trans (by decide)

/-- Claim C8: the empty input yields the empty output, for every draw
sequence. -/
theorem ancient_latin_empty (d : RandDraws) : ancient_latin_text "" d = "" := rfl

/-- Claim C9: the resource handler `get_ancient_latin_text` returns
exactly the result of the tool `ancient_latin_text` on the same input
and draw sequence. -/
theorem resource_equals_tool (text : String) (d : RandDraws) :
    get_ancient_latin_text text d = ancient_latin_text text d := rfl

/-- Claim C7: `get_greeting` returns exactly "Hello, " followed by the
name followed by an exclamation mark. -/
theorem get_greeting_exact (name : String) :
    get_greeting name = "Hello, " ++ name ++ "!" := rfl

/-- Claim C10: the `add` tool returns the sum of its two integer
arguments. -/
theorem add_returns_sum (a b : Int) : add a b = a + b := rfl

/-- Claim C2: `get_greek_gods` returns all 14 records for limits at
least 14, exactly L records for 0 ≤ L < 14, and 10 records by default;
the result is always a prefix of the dataset (file order) and every
record has its four fields populated. -/
theorem get_greek_gods_spec :
    (∀ L : Int, 14 ≤ L → (get_greek_gods (some L)).length = 14)
    ∧ (∀ L : Int, 0 ≤ L → L < 14 → ((get_greek_gods (some L)).length : Int) = L)
    ∧ (List.length get_greek_gods = 10)
    ∧ (∀ limit, get_greek_gods limit <+: greekGods)
    ∧ (∀ g ∈ greekGods,
        g.name ≠ "" ∧ g.domain ≠ "" ∧ g.symbol ≠ "" ∧ g.roman_name ≠ "") := by
  refine ⟨?_, ?_, by decide, ?_, by decide⟩
  · intro L hL
    simp [get_greek_gods, List.length_take, greekGods_length]
    omega
  · intro L h0 h14
    simp [get_greek_gods, List.length_take, greekGods_length]
    omega
  · intro limit
    cases limit with
    | none => exact List.prefix_refl _
    | some l => exact List.take_prefix _ _

/-- Witness for C2 at concrete limits and a concrete record. -/
theorem get_greek_gods_spec_witness :
    (get_greek_gods (some 20)).length = 14
    ∧ ((get_greek_gods (some 5)).length : Int) = 5
    ∧ (GodRecord.mk "Zeus" "Sky and Thunder" "Lightning bolt" "Jupiter").name ≠ "" := by
  refine ⟨get_greek_gods_spec.1 20 (by decide),
    get_greek_gods_spec.2.1 5 (by decide) (by decide), ?_⟩
  exact (get_greek_gods_spec.2.2.2.2
    (GodRecord.mk "Zeus" "Sky and Thunder" "Lightning bolt" "Jupiter") (by decide)).1

/-- Claim C5: each of the three prompt templates returns the fixed
two-message structure — roles system then user, in that order — and the
user message's text contains the caller-supplied content (topic, code,
changes) verbatim as a substring. -/
theorem prompt_templates_shape :
    (∀ topic, ∃ s u, get_mcp_expert_prompt topic = promptShape s u)
    ∧ (∀ t : String, ∃ s pre post,
        get_mcp_expert_prompt (some t) = promptShape s (pre ++ t ++ post))
    ∧ (∀ code language, ∃ s pre post,
        get_code_review_prompt code language = promptShape s (pre ++ code ++ post))
    ∧ (∀ changes, ∃ s pre post,
        get_git_commit_prompt changes = promptShape s (pre ++ changes ++ post)) := by
  refine ⟨fun topic => ⟨_, _, rfl⟩, ?_, ?_, ?_⟩
  · intro t
    by_cases ht : t = ""
    · subst ht
      refine ⟨mcpBasePrompt, "Please tell me about ", "MCP in general", ?_⟩
      simp [get_mcp_expert_prompt, String.append_empty]
    · refine ⟨mcpBasePrompt ++ (if strLower t = "tools" then toolsContent
        else if strLower t = "resources" then resourcesContent
        else if strLower t = "prompts" then promptsContent else ""),
        "Please tell me about ", "", ?_⟩
      rw [String.append_empty]
      simp only [get_mcp_expert_prompt, if_neg ht]
  · intro code language
    exact ⟨_, "Please review this " ++ pyStrOfOptStr language ++
      " code and suggest improvements:\n\n```" ++ pyStrOfOptStr language ++ "\n",
      "\n```", rfl⟩
  · intro changes
    refine ⟨"You are an expert at writing clear, concise, and informative Git commit messages.",
      "Generate a commit message for these changes:\n\n", "", ?_⟩
    rw [String.append_empty]
    exact rfl

theorem wfMsg_dict (m : PyVal) (h : wfMsg m = true) :
    ∃ f, m = PyVal.dict f ∧ (f.lookup "role").isSome = true ∧
      ∀ c, f.lookup "content" = some c → ∃ cf, c = PyVal.dict cf := by
  cases m with
  | null => simp [wfMsg] at h
  | bool b => simp [wfMsg] at h
  | int n => simp [wfMsg] at h
  | str s => simp [wfMsg] at h
  | list l => simp [wfMsg] at h
  | dict f =>
    simp only [wfMsg, Bool.and_eq_true] at h
    refine ⟨f, rfl, h.1, ?_⟩
    intro c hc
    have h2 := h.2
    rw [hc] at h2
    cases c <;> simp_all

theorem wf_not_falsy (f : List (String × PyVal))
    (h : (f.lookup "role").isSome = true) :
    pyFalsy (PyVal.dict f) = false := by
  cases f with
  | nil => simp [List.lookup] at h
  | cons p rest => simp [pyFalsy, List.isEmpty]

theorem hasRole_of_lookup (f : List (String × PyVal)) (r : PyVal) (role : String)
    (hr : f.lookup "role" = some r) :
    hasRole role (PyVal.dict f) = pyEqStr r role := by
  cases r <;> simp [hasRole, pyEqStr, hr]

theorem findByRole_wf (role : String) (msgs : List PyVal)
    (h : ∀ m ∈ msgs, wfMsg m = true) :
    findByRole msgs role = .ok (msgs.find? (hasRole role)) := by
  induction msgs with
  | nil => rfl
  | cons m rest ih =>
    have hm := h m (List.mem_cons_self m rest)
    obtain ⟨f, rfl, hrole, hcont⟩ := wfMsg_dict m hm
    obtain ⟨r, hr⟩ := Option.isSome_iff_exists.mp hrole
    have hhr := hasRole_of_lookup f r role hr
    cases hpe : pyEqStr r role with
    | true =>
      rw [List.find?_cons_of_pos _ (by rw [hhr, hpe])]
      simp [findByRole, getItem, hr, hpe]
    | false =>
      rw [List.find?_cons_of_neg _ (by rw [hhr, hpe]; exact Bool.false_ne_true)]
      simp only [findByRole, getItem, hr, hpe, if_neg Bool.false_ne_true]
      exact ih (fun x hx => h x (List.mem_cons_of_mem _ hx))

theorem extractSystemText_wf (om : Option PyVal)
    (h : ∀ m, om = some m → wfMsg m = true) :
    ∃ st, extractSystemText om = .ok st := by
  cases om with
  | none => exact ⟨Option.none, rfl⟩
  | some m =>
    obtain ⟨f, rfl, hrole, hcont⟩ := wfMsg_dict m (h m rfl)
    rw [extractSystemText, wf_not_falsy f hrole]
    cases hc : f.lookup "content" with
    | none => exact ⟨Option.none, by simp [pyIn, hc]⟩
    | some c =>
      obtain ⟨cf, rfl⟩ := hcont c hc
      cases ht : cf.lookup "text" with
      | none => exact ⟨Option.none, by simp [pyIn, getItem, hc, ht]⟩
      | some t => exact ⟨some t, by simp [pyIn, getItem, hc, ht]⟩

theorem process_reduces_wf (gen : PyVal → Option PyVal → Except PyErr PyVal)
    (pd : List (String × PyVal)) (msgs : List PyVal)
    (hlk : pd.lookup "messages" = some (PyVal.list msgs))
    (hwf : ∀ m ∈ msgs, wfMsg m = true)
    (hmiss : missingUser msgs = false) :
    ∃ ut st, process_mcp_prompt gen (PyVal.dict pd) = gen ut st := by
  have hget : getItem (PyVal.dict pd) "messages" = .ok (PyVal.list msgs) := by
    simp [getItem, hlk]
  have hsys := findByRole_wf "system" msgs hwf
  have husr := findByRole_wf "user" msgs hwf
  rw [missingUser] at hmiss
  cases hfu : msgs.find? (hasRole "user") with
  | none => rw [hfu] at hmiss; simp [userMissingPure] at hmiss
  | some m =>
    rw [hfu] at hmiss
    have hmem := List.mem_of_find?_eq_some hfu
    obtain ⟨f, rfl, hrole, hcont⟩ := wfMsg_dict m (hwf m hmem)
    simp only [userMissingPure] at hmiss
    cases hc : f.lookup "content" with
    | none => rw [hc] at hmiss; simp [contentMissing] at hmiss
    | some c =>
      obtain ⟨cf, rfl⟩ := hcont c hc
      rw [hc] at hmiss
      simp only [contentMissing, Option.isNone_eq_false_iff,
        Option.isSome_iff_exists] at hmiss
      obtain ⟨ut, hut⟩ := hmiss
      obtain ⟨st, hst⟩ := extractSystemText_wf (msgs.find? (hasRole "system"))
        (fun m hm => hwf m (List.mem_of_find?_eq_some hm))
      refine ⟨ut, st, ?_⟩
      simp only [process_mcp_prompt, PyVal.isDict, pyHasKey, hlk, Option.isSome_some,
        Bool.and_self, if_true, hget, pyIter, hsys, husr, hfu]
      rw [userMissing]
      rw [wf_not_falsy f hrole]
      simp [pyIn, getItem, hc, hut, extractUserText, hst]

/-- Counterexample to claim C3 as stated: the prompt
`{"messages": [{}]}` has a message list with no user-role message, yet
`process_mcp_prompt` raises `KeyError: 'role'` while scanning for the
system message instead of returning the error string. -/
theorem process_mcp_prompt_missing_role_raises :
    process_mcp_prompt genStub (PyVal.dict [("messages", PyVal.list [PyVal.dict []])]) =
      .error (PyErr.keyError "role")
    ∧ process_mcp_prompt genStub (PyVal.dict [("messages", PyVal.list [PyVal.dict []])]) ≠
      .ok (PyVal.str "Error: Missing user message") :=
  ⟨rfl, fun h => nomatch h⟩

/-- Claim C3 (amended): for every input that is not a dict or has no
"messages" key, the result is exactly "Error: Invalid prompt format";
and for every input whose "messages" value is a list of well-formed
messages (dicts with a "role" entry and dict-valued "content" entries)
that lacks a usable user message — no user-role message, or its first
user-role message without a "content" entry or without a "text" entry in
its content dict — the result is exactly "Error: Missing user message". -/
theorem process_mcp_prompt_error_strings
    (gen : PyVal → Option PyVal → Except PyErr PyVal) (v : PyVal) :
    ((v.isDict && pyHasKey v "messages") = false →
      process_mcp_prompt gen v = .ok (PyVal.str "Error: Invalid prompt format"))
    ∧ (∀ pd msgs, v = PyVal.dict pd →
        pd.lookup "messages" = some (PyVal.list msgs) →
        (∀ m ∈ msgs, wfMsg m = true) →
        missingUser msgs = true →
        process_mcp_prompt gen v = .ok (PyVal.str "Error: Missing user message")) := by
  constructor
  · intro hcond
    simp [process_mcp_prompt, hcond]
  · rintro pd msgs rfl hlk hwf hmiss
    have hget : getItem (PyVal.dict pd) "messages" = .ok (PyVal.list msgs) := by
      simp [getItem, hlk]
    have hsys := findByRole_wf "system" msgs hwf
    have husr := findByRole_wf "user" msgs hwf
    rw [missingUser] at hmiss
    simp only [process_mcp_prompt, PyVal.isDict, pyHasKey, hlk, Option.isSome_some,
      Bool.and_self, if_true, hget, pyIter, hsys, husr]
    cases hfu : msgs.find? (hasRole "user") with
    | none => simp [userMissing]
    | some m =>
      rw [hfu] at hmiss
      have hmem := List.mem_of_find?_eq_some hfu
      obtain ⟨f, rfl, hrole, hcont⟩ := wfMsg_dict m (hwf m hmem)
      simp only [userMissingPure] at hmiss
      rw [userMissing]
      rw [wf_not_falsy f hrole]
      cases hc : f.lookup "content" with
      | none => simp [pyIn, hc]
      | some c =>
        obtain ⟨cf, rfl⟩ := hcont c hc
        rw [hc] at hmiss
        simp only [contentMissing] at hmiss
        simp [pyIn, getItem, hc, Option.isNone_iff_eq_none.mp hmiss]

/-- Witness for the amended C3 at concrete inputs: a non-dict prompt and
a prompt whose only (well-formed) user message has no content. -/
theorem process_mcp_prompt_error_strings_witness :
    process_mcp_prompt genStub (PyVal.int 3) =
      .ok (PyVal.str "Error: Invalid prompt format")
    ∧ process_mcp_prompt genStub
        (PyVal.dict [("messages", PyVal.list [PyVal.dict [("role", PyVal.str "user")]])]) =
      .ok (PyVal.str "Error: Missing user message") :=
  ⟨(process_mcp_prompt_error_strings genStub (PyVal.int 3)).1 rfl,
   (process_mcp_prompt_error_strings genStub
      (PyVal.dict [("messages", PyVal.list [PyVal.dict [("role", PyVal.str "user")]])])).2
     [("messages", PyVal.list [PyVal.dict [("role", PyVal.str "user")]])]
     [PyVal.dict [("role", PyVal.str "user")]] rfl rfl (by decide) rfl⟩

/-- Counterexample to claim C4 as stated: on the prompt
`{"messages": ["x"]}` the bridge raises a `TypeError` (string indices
must be integers, from `m["role"]`) instead of returning a string, even
though the backend never fails. -/
theorem bridge_raises_on_malformed :
    process_mcp_prompt (generate netFail "llama3")
        (PyVal.dict [("messages", PyVal.list [PyVal.str "x"])]) =
      .error PyErr.typeError := rfl

/-- Claim C4 (amended): for every prompt whose "messages" value is a
list of well-formed messages (dicts with a "role" entry and dict-valued
"content" entries) containing a usable user message, the bridge does not
raise: when every request fails with a transport error it returns the
literal "Error: " string carrying the failure detail, and when every
request succeeds with a JSON-object body it returns the body's
"response" field, or the empty string when that field is absent. -/
theorem bridge_wellformed_no_throw (net : PyVal → HttpOutcome) (model : String)
    (pd : List (String × PyVal)) (msgs : List PyVal)
    (hlk : pd.lookup "messages" = some (PyVal.list msgs))
    (hwf : ∀ m ∈ msgs, wfMsg m = true)
    (hmiss : missingUser msgs = false) :
    (∀ e, (∀ p, net p = HttpOutcome.reqError e) →
      process_mcp_prompt (generate net model) (PyVal.dict pd) =
        .ok (PyVal.str ("Error: " ++ e)))
    ∧ (∀ body, (∀ p, net p = HttpOutcome.success (some (PyVal.dict body))) →
      process_mcp_prompt (generate net model) (PyVal.dict pd) =
        .ok ((body.lookup "response").getD (PyVal.str ""))) := by
  obtain ⟨ut, st, heq⟩ := process_reduces_wf (generate net model) pd msgs hlk hwf hmiss
  constructor
  · intro e hn
    rw [heq]
    simp [generate, hn]
  · intro body hn
    rw [heq]
    simp [generate, hn]

/-- Witness for the amended C4: a well-formed prompt against a network
that always fails yields the literal error string. -/
theorem bridge_wellformed_no_throw_witness :
    process_mcp_prompt (generate netFail "llama3") wfPromptExample =
      .ok (PyVal.str "Error: connection refused") := by
  have h := bridge_wellformed_no_throw netFail "llama3"
    [("messages", PyVal.list [PyVal.dict [("role", PyVal.str "user"),
      ("content", PyVal.dict [("text", PyVal.str "hi")])]])]
    [PyVal.dict [("role", PyVal.str "user"),
      ("content", PyVal.dict [("text", PyVal.str "hi")])]]
    rfl (by decide) rfl
  exact h.1 "connection refused" (fun p => rfl)
